import Mathlib

/-!
A shallow embedding of `app.py`, a one-shot batch tool that imports GitHub
issues (fetched through the `gh` CLI) into a Jira project (through the Jira
REST API), together with theorems about its import pipeline.

External effects (HTTP requests, subprocess calls) are modelled by an
environment of response functions (`Env`) and by an explicit trace of the
write actions the program performs (`Action`).  Machine behaviour that the
program only observes through parsed JSON is modelled by small structures
carrying exactly the fields the program reads.
-/

namespace GhJira

/-- One element of the `labels` array returned by `gh issue list`;
the program only reads `label['name']`. -/
structure Label where
  name : String
deriving DecidableEq

/-- One element of the `comments` array; the program only reads `c['body']`. -/
structure Comment where
  body : String
deriving DecidableEq

/-- One element of the `assignees` array; the program only reads `a['login']`. -/
structure Assignee where
  login : String
deriving DecidableEq

/-- An issue record as parsed from
`gh issue list -R {repo} --json title,labels,url,body,comments,number,author,assignees`. -/
structure Issue where
  title : String
  body : String
  url : String
  number : Nat
  author : String
  labels : List Label
  comments : List Comment
  assignees : List Assignee
deriving DecidableEq

/-- A value stored under one key of the creation payload's `fields` object
(`_create_issue` builds exactly these shapes). -/
inductive FieldVal where
  /-- a plain JSON string, e.g. `description` -/
  | str (v : String)
  /-- a JSON array of strings, e.g. `labels` -/
  | strList (v : List String)
  /-- an object of the form `{"name": v}`, used for `issuetype` -/
  | nameObj (v : String)
  /-- an object of the form `{"key": v}`, used for `project` -/
  | keyObj (v : String)
  /-- an object of the form `{"id": v}`, used for `assignee` -/
  | idObj (v : String)
deriving DecidableEq

/-- The JSON payload `_create_issue` POSTs to the `issue` endpoint:
an association list of the keys of `payload["fields"]`, in insertion order.
A key is present in this list iff the Python dict carries it. -/
structure CreatePayload where
  fields : List (String × FieldVal)
deriving DecidableEq

/-- The payload built by `_create_issue(description, summary, issue_type,
labels, project_key, issue_url, assignee)`: the six unconditional fields in
source order and, only when `assignee is not None`, an `assignee` field. -/
def create_issue (description : String) (summary : String)
    (issue_type : String) (labels : List String) (project_key : String)
    (issue_url : String) (assignee : Option String) : CreatePayload :=
  { fields :=
      [("description", FieldVal.str description),
       ("summary", FieldVal.str summary),
       ("issuetype", FieldVal.nameObj issue_type),
       ("labels", FieldVal.strList labels),
       ("project", FieldVal.keyObj project_key),
       ("customfield_10052", FieldVal.str issue_url)] ++
      (match assignee with
       | none => []
       | some a => [("assignee", FieldVal.idObj a)]) }

/-- What the program reads out of a Jira issue-creation response:
`resp.ok`, whether the parsed JSON body has an `"errors"` key, whether that
errors object has an `"assignee"` key, the rendering of the errors object
(used in the `RuntimeError` message), and the `key`/`id` fields read on
success. -/
structure JiraResponse where
  ok : Bool
  has_errors : Bool
  assignee_in_errors : Bool
  errors_text : String
  key : String
  id : String
deriving DecidableEq

/-- The configuration state of a `GithubIssueImport` object after `__init__`:
the constructor arguments plus the already-resolved NullPanda account and the
already-built GitHub-login → Jira-account mapping. -/
structure GithubIssueImport where
  github_repo : String
  limit : Nat
  jira_user : String
  jira_token : String
  jira_url : String
  jira_project : String
  null_panda_user : String
  mapped_users : List (String × String)

/-- Responses of the external world: the `total` field of a Jira `search`
response for a given JQL string, and the Jira response to an issue-creation
payload. -/
structure Env where
  search_total : String → Nat
  create_resp : CreatePayload → JiraResponse

/-- A write/query action the import loop performs against the outside world,
in program order. -/
inductive Action where
  /-- the Jira `search` GET issued by `_jira_issue_linked_to_gh_issue` -/
  | search (url : String)
  /-- a POST to the `issue` endpoint with the given payload -/
  | create (p : CreatePayload)
  /-- a POST to `issue/{issue_id}/comment` with the given body -/
  | add_comment (issue_id : String) (body : String)
  /-- the `gh issue edit <url> --body-file <tmp>` call, carrying the body
  written to the temporary file -/
  | edit_issue (url : String) (body : String)
deriving DecidableEq

/-- The JQL string `_jira_issue_linked_to_gh_issue` builds:
`project = {project} and "External GitHub Issue[URL Field]" = "{gh_url}"`. -/
def jql_query (project : String) (gh_url : String) : String :=
  "project = " ++ project ++
    " and \"External GitHub Issue[URL Field]\" = \"" ++ gh_url ++ "\""

/-- Models `_jira_issue_linked_to_gh_issue`: true iff the search response's
`total` is nonzero. -/
def jira_issue_linked_to_gh_issue (env : Env) (cfg : GithubIssueImport)
    (gh_url : String) : Bool :=
  env.search_total (jql_query cfg.jira_project gh_url) != 0

/-- The binding `labels = [label['name'] for label in issue["labels"]]` —
the label names are taken verbatim. -/
def issueLabels (issue : Issue) : List String :=
  issue.labels.map Label.name

/-- The classification `issue_type = "Bug" if 'kind/bug' in labels else
"Task"`. -/
def issueTypeOf (issue : Issue) : String :=
  if (issueLabels issue).contains "kind/bug" then "Bug" else "Task"

/-- The `assignee` local: `None` when the issue has no assignees, otherwise
`self._mapped_users.get(first_login, self._null_panda_user)`. -/
def assigneeOf (cfg : GithubIssueImport) (issue : Issue) : Option String :=
  match issue.assignees with
  | [] => none
  | a :: _ => some ((cfg.mapped_users.lookup a.login).getD cfg.null_panda_user)

/-- The first creation payload submitted for an issue (line 181-183). -/
def payload1 (cfg : GithubIssueImport) (issue : Issue) : CreatePayload :=
  create_issue issue.body issue.title (issueTypeOf issue) (issueLabels issue)
    cfg.jira_project issue.url (assigneeOf cfg issue)

/-- The resubmission payload: identical but with no assignee (line 191-194). -/
def payload2 (cfg : GithubIssueImport) (issue : Issue) : CreatePayload :=
  create_issue issue.body issue.title (issueTypeOf issue) (issueLabels issue)
    cfg.jira_project issue.url none

/-- The resubmit condition of line 186-187: `assignee is not None and not
resp.ok and "errors" in response and "assignee" in response["errors"]`. -/
def retryCond (cfg : GithubIssueImport) (env : Env) (issue : Issue) : Bool :=
  (assigneeOf cfg issue).isSome &&
    !(env.create_resp (payload1 cfg issue)).ok &&
    (env.create_resp (payload1 cfg issue)).has_errors &&
    (env.create_resp (payload1 cfg issue)).assignee_in_errors

/-- The `response` dict that line 196 inspects: the resubmission's response
when the resubmit condition fired, otherwise the first response. -/
def governingResp (cfg : GithubIssueImport) (env : Env) (issue : Issue) :
    JiraResponse :=
  if retryCond cfg env issue then env.create_resp (payload2 cfg issue)
  else env.create_resp (payload1 cfg issue)

/-- The boilerplate provenance comment of lines 201-206, verbatim. -/
def boilerplate_message : String :=
  "\n            JIRA Issue created from GitHub issue.  Any updates in JIRA will _not_ be pushed back\n            to the GitHub issue.  New comments from GitHub will sync with JIRA issue, but not\n            modifications.  Please refer to the External GitHub Link field to get to the GitHub\n            issue that triggered this issue's creation.\n            "

/-- The body written for the back-link patch (lines 216-218):
the original GitHub body with
`\n\nJIRA Link: [{issue_key}]({jira_url}/browse/{issue_key})` appended. -/
def backlinkBody (cfg : GithubIssueImport) (issue : Issue)
    (issue_key : String) : String :=
  issue.body ++ "\n\nJIRA Link: [" ++ issue_key ++ "](" ++
    cfg.jira_url ++ "/browse/" ++ issue_key ++ ")"

/-- One iteration of the loop body of `_import_issues` (lines 163-230) for a
single issue: the trace of external actions it performs, and `some msg` when
it raises `RuntimeError(msg)` (line 197), in which case the trace stops
there. -/
def import_issue (cfg : GithubIssueImport) (env : Env) (issue : Issue) :
    List Action × Option String :=
  if jira_issue_linked_to_gh_issue env cfg issue.url then
    ([Action.search issue.url], none)
  else
    let creates :=
      if retryCond cfg env issue then
        [Action.create (payload1 cfg issue), Action.create (payload2 cfg issue)]
      else
        [Action.create (payload1 cfg issue)]
    let response := governingResp cfg env issue
    if response.has_errors then
      (Action.search issue.url :: creates, some response.errors_text)
    else
      (Action.search issue.url ::
        (creates ++
          [Action.add_comment response.id boilerplate_message] ++
          (if (issueLabels issue).contains "kind/backport" then []
           else [Action.edit_issue issue.url
                   (backlinkBody cfg issue response.key)]) ++
          (issue.comments.reverse.map
            (fun c => Action.add_comment response.id c.body))),
       none)

/-- The loop of `_import_issues` over an already-ordered issue list: traces
are concatenated in order, and a `RuntimeError` aborts the loop, leaving the
remaining issues unprocessed. -/
def import_issues_loop (cfg : GithubIssueImport) (env : Env) :
    List Issue → List Action × Option String
  | [] => ([], none)
  | issue :: rest =>
    let r := import_issue cfg env issue
    match r.2 with
    | some e => (r.1, some e)
    | none =>
      let rs := import_issues_loop cfg env rest
      (r.1 ++ rs.1, rs.2)

/-- Models `_import_issues(issues)`: the loop runs over `reversed(issues)`. -/
def import_issues (cfg : GithubIssueImport) (env : Env)
    (issues : List Issue) : List Action × Option String :=
  import_issues_loop cfg env issues.reverse

/-! ### Observations on action traces -/

/-- View of an action as a creation POST. -/
def Action.createPayload : Action → Option CreatePayload
  | Action.create p => some p
  | _ => none

/-- View of an action as a comment POST. -/
def Action.commentBody : Action → Option String
  | Action.add_comment _ b => some b
  | _ => none

/-- View of an action as a `gh issue edit` call. -/
def Action.editEvent : Action → Option (String × String)
  | Action.edit_issue u b => some (u, b)
  | _ => none

/-- View of an action as a duplicate-guard search. -/
def Action.searchUrl : Action → Option String
  | Action.search u => some u
  | _ => none

/-- The creation payloads POSTed in a trace, in order. -/
def createPayloads (acts : List Action) : List CreatePayload :=
  acts.filterMap Action.createPayload

/-- The comment bodies POSTed in a trace, in order. -/
def commentBodies (acts : List Action) : List String :=
  acts.filterMap Action.commentBody

/-- The `gh issue edit` calls in a trace: (issue url, new body) pairs. -/
def editEvents (acts : List Action) : List (String × String) :=
  acts.filterMap Action.editEvent

/-- The urls of the duplicate-guard searches in a trace, in order. -/
def searchUrls (acts : List Action) : List String :=
  acts.filterMap Action.searchUrl

/-- The first creation payload submitted for an issue in a run of the loop
body (an empty payload when the issue was skipped). -/
def firstCreatePayload (cfg : GithubIssueImport) (env : Env)
    (issue : Issue) : CreatePayload :=
  match createPayloads (import_issue cfg env issue).1 with
  | [] => { fields := [] }
  | p :: _ => p

/-- The value stored under key `k` of the first creation payload's
`fields` object. -/
def storedField (cfg : GithubIssueImport) (env : Env) (issue : Issue)
    (k : String) : Option FieldVal :=
  (firstCreatePayload cfg env issue).fields.lookup k

/-- The `description` string of the first creation payload. -/
def storedDescription (cfg : GithubIssueImport) (env : Env)
    (issue : Issue) : String :=
  match storedField cfg env issue "description" with
  | some (FieldVal.str s) => s
  | _ => ""

/-- The `labels` array of the first creation payload. -/
def storedLabels (cfg : GithubIssueImport) (env : Env)
    (issue : Issue) : List String :=
  match storedField cfg env issue "labels" with
  | some (FieldVal.strList l) => l
  | _ => []

/-- The `issuetype.name` of the first creation payload. -/
def storedIssueType (cfg : GithubIssueImport) (env : Env)
    (issue : Issue) : String :=
  match storedField cfg env issue "issuetype" with
  | some (FieldVal.nameObj n) => n
  | _ => ""

/-- The first comment body posted for an issue, i.e. the provenance comment
(empty when no comment was posted). -/
def provenanceComment (cfg : GithubIssueImport) (env : Env)
    (issue : Issue) : String :=
  match commentBodies (import_issue cfg env issue).1 with
  | [] => ""
  | m :: _ => m

/-! ### The back-link temporary file (lines 219-225)

`_import_issues` writes the new body through
`tempfile.NamedTemporaryFile(delete=False)`: the statements of the `with`
block run in order; a statement that raises skips the rest of the block;
the context manager's exit then closes the file but — because of
`delete=False` — never removes it.  The only fallible statement is the
`gh issue edit` subprocess call (`subprocess.check_output` raises on a
nonzero exit); `os.unlink(tf.name)` is the statement after it. -/

/-- The statements of the `with tempfile.NamedTemporaryFile(delete=False)`
block, in source order. -/
inductive TfStmt where
  /-- models `tf.write(issue_body.encode())` -/
  | write
  /-- models `tf.flush()` -/
  | flush
  /-- models `tf.close()` -/
  | closeFile
  /-- models `self._run_cmd_return_stdout("gh issue edit ...")` -/
  | runEdit
  /-- models `os.unlink(tf.name)` -/
  | unlinkFile
deriving DecidableEq

/-- The with-block body of lines 220-225, in source order. -/
def tf_block_stmts : List TfStmt :=
  [TfStmt.write, TfStmt.flush, TfStmt.closeFile, TfStmt.runEdit,
   TfStmt.unlinkFile]

/-- State of the temporary file while the with-block executes. -/
structure TfState where
  /-- does the temporary file still exist on disk? -/
  file_exists : Bool
  /-- has an exception been raised? -/
  raised : Bool
deriving DecidableEq

/-- Effect of one statement: `gh issue edit` raises iff `edit_ok` is false
(a nonzero subprocess exit); `os.unlink` removes the file; the rest leave
the file state unchanged. -/
def execTfStmt (edit_ok : Bool) (s : TfState) : TfStmt → TfState
  | TfStmt.runEdit => if edit_ok then s else { s with raised := true }
  | TfStmt.unlinkFile => { s with file_exists := false }
  | _ => s

/-- Run the with-block body: once a statement has raised, the remaining
statements are skipped.  The `NamedTemporaryFile(delete=False)` context
manager's own exit closes the file but never deletes it, so it leaves
`file_exists` untouched. -/
def execTfBlock (edit_ok : Bool) : TfState → List TfStmt → TfState
  | s, [] => s
  | s, stmt :: rest =>
    if s.raised then s
    else execTfBlock edit_ok (execTfStmt edit_ok s stmt) rest

/-- The back-link patch of lines 219-225: the file exists once
`NamedTemporaryFile` has created it, then the block runs. -/
def backlink_patch (edit_ok : Bool) : TfState :=
  execTfBlock edit_ok { file_exists := true, raised := false } tf_block_stmts

/-! ### Top level (`main` and the `__main__` guard, lines 277-336) -/

/-- The CSV header `main` asserts on (line 280). -/
def EXPECTED_FIELD_NAMES : List String := ["Github Username", "Name", "Email"]

/-- How one run of `issue_importer.run()` can end, as observed by `main`. -/
inductive RunOutcome where
  /-- means `run()` returned normally -/
  | completed
  /-- means `run()` raised `RuntimeError(msg)` (the creation-failure abort) -/
  | runtimeError (msg : String)
  /-- means `run()` raised some other exception (`CalledProcessError` from a
  crashed external command, or a JSON parse error) -/
  | otherError (msg : String)
deriving DecidableEq

/-- Outcome of `run()`: a failed fetch is a non-`RuntimeError` exception;
otherwise the import loop either raises `RuntimeError` or completes. -/
def run_outcome (cfg : GithubIssueImport) (env : Env)
    (fetched : Except String (List Issue)) : RunOutcome :=
  match fetched with
  | Except.error e => RunOutcome.otherError e
  | Except.ok issues =>
    match (import_issues cfg env issues).2 with
    | some e => RunOutcome.runtimeError e
    | none => RunOutcome.completed

/-- Models `main` (lines 277-291): the bad-header assertion fires first;
`except RuntimeError` logs and falls through to `return 0`; every other
exception escapes `main`.  `Except.ok n` is `main` returning `n`,
`Except.error e` is an exception escaping `main`. -/
def main_result (csv_header : List String) (outcome : RunOutcome) :
    Except String Nat :=
  if csv_header = EXPECTED_FIELD_NAMES then
    match outcome with
    | RunOutcome.completed => Except.ok 0
    | RunOutcome.runtimeError _ => Except.ok 0
    | RunOutcome.otherError e => Except.error e
  else
    Except.error "Invalid field names."

/-- The `__main__` guard (lines 331-336): `sys.exit(main())` on a normal
return, `sys.exit(1)` when an exception escapes `main`. -/
def process_exit (csv_header : List String) (outcome : RunOutcome) : Nat :=
  match main_result csv_header outcome with
  | Except.ok n => n
  | Except.error _ => 1

/-! ### Concrete fixtures -/

/-- A concrete configuration. -/
def cfg₀ : GithubIssueImport :=
  { github_repo := "org/repo"
    limit := 100000
    jira_user := "operator@example.com"
    jira_token := "tok"
    jira_url := "https://example.atlassian.net"
    jira_project := "PROJ"
    null_panda_user := "nullpanda-id"
    mapped_users := [("alice", "alice-id")] }

/-- A successful creation response. -/
def respOk : JiraResponse :=
  { ok := true, has_errors := false, assignee_in_errors := false,
    errors_text := "", key := "PROJ-1", id := "10001" }

/-- A creation failure attributed to the `assignee` field. -/
def respAssigneeFail : JiraResponse :=
  { ok := false, has_errors := true, assignee_in_errors := true,
    errors_text := "assignee: cannot be assigned issues", key := "", id := "" }

/-- A creation failure not related to the assignee. -/
def respOtherFail : JiraResponse :=
  { ok := false, has_errors := true, assignee_in_errors := false,
    errors_text := "issuetype: not valid", key := "", id := "" }

/-- A world with no linked issues where every creation succeeds. -/
def env₀ : Env :=
  { search_total := fun _ => 0, create_resp := fun _ => respOk }

/-- A world where every search reports one already-linked issue. -/
def env₁ : Env :=
  { search_total := fun _ => 1, create_resp := fun _ => respOk }

/-- A world where creation fails on the assignee exactly when the payload
carries an `assignee` field, and succeeds otherwise. -/
def envAssigneeReject : Env :=
  { search_total := fun _ => 0,
    create_resp := fun p =>
      if (p.fields.lookup "assignee").isSome then respAssigneeFail
      else respOk }

/-- A world where every creation fails for a non-assignee reason. -/
def envAlwaysFail : Env :=
  { search_total := fun _ => 0, create_resp := fun _ => respOtherFail }

/-- The source issue of the spec's worked example. -/
def sampleIssue : Issue :=
  { title := "crash on startup"
    body := "stack trace"
    url := "https://github.com/org/repo/issues/5"
    number := 5
    author := "alice"
    labels := [{ name := "kind/bug" }]
    comments := [{ body := "repro steps" }]
    assignees := [] }

/-- An issue with two comments in fetch order. -/
def twoCommentIssue : Issue :=
  { title := "flaky test"
    body := "details"
    url := "https://github.com/org/repo/issues/6"
    number := 6
    author := "bob"
    labels := []
    comments := [{ body := "first comment" }, { body := "second comment" }]
    assignees := [] }

/-- An issue whose only label contains spaces. -/
def spacedLabelIssue : Issue :=
  { title := "docs"
    body := "typo"
    url := "https://github.com/org/repo/issues/7"
    number := 7
    author := "carol"
    labels := [{ name := "good first issue" }]
    comments := []
    assignees := [] }

/-- An issue assigned to a mapped user. -/
def assignedIssue : Issue :=
  { title := "leak"
    body := "grows unbounded"
    url := "https://github.com/org/repo/issues/8"
    number := 8
    author := "alice"
    labels := [{ name := "kind/bug" }]
    comments := []
    assignees := [{ login := "alice" }] }


/-! ### Structural lemmas about one loop iteration -/

/-- The list of creation POSTs issued for one issue (line 181-194): the
first payload, followed by the assignee-free resubmission when the
resubmit condition fired. -/
def submittedPayloads (cfg : GithubIssueImport) (env : Env)
    (issue : Issue) : List Action :=
  if retryCond cfg env issue then
    [Action.create (payload1 cfg issue), Action.create (payload2 cfg issue)]
  else
    [Action.create (payload1 cfg issue)]

theorem import_issue_linked (cfg : GithubIssueImport) (env : Env) (i : Issue)
    (h : jira_issue_linked_to_gh_issue env cfg i.url = true) :
    import_issue cfg env i = ([Action.search i.url], none) := by
  unfold import_issue
  rw [if_pos h]

theorem import_issue_not_linked (cfg : GithubIssueImport) (env : Env)
    (i : Issue) (h : jira_issue_linked_to_gh_issue env cfg i.url = false) :
    import_issue cfg env i =
      if (governingResp cfg env i).has_errors then
        (Action.search i.url :: submittedPayloads cfg env i,
         some (governingResp cfg env i).errors_text)
      else
        (Action.search i.url ::
          (submittedPayloads cfg env i ++
            [Action.add_comment (governingResp cfg env i).id
               boilerplate_message] ++
            (if (issueLabels i).contains "kind/backport" then []
             else [Action.edit_issue i.url
                     (backlinkBody cfg i (governingResp cfg env i).key)]) ++
            (i.comments.reverse.map
              (fun c => Action.add_comment (governingResp cfg env i).id
                          c.body))),
         none) := by
  unfold import_issue
  rw [if_neg (by simp [h])]
  rfl

@[simp]
theorem createPayload_search (u : String) :
    (Action.search u).createPayload = none := rfl

@[simp]
theorem createPayload_create (p : CreatePayload) :
    (Action.create p).createPayload = some p := rfl

@[simp]
theorem createPayload_add_comment (issue_id b : String) :
    (Action.add_comment issue_id b).createPayload = none := rfl

@[simp]
theorem createPayload_edit_issue (u b : String) :
    (Action.edit_issue u b).createPayload = none := rfl

@[simp]
theorem commentBody_search (u : String) :
    (Action.search u).commentBody = none := rfl

@[simp]
theorem commentBody_create (p : CreatePayload) :
    (Action.create p).commentBody = none := rfl

@[simp]
theorem commentBody_add_comment (issue_id b : String) :
    (Action.add_comment issue_id b).commentBody = some b := rfl

@[simp]
theorem commentBody_edit_issue (u b : String) :
    (Action.edit_issue u b).commentBody = none := rfl

@[simp]
theorem editEvent_search (u : String) :
    (Action.search u).editEvent = none := rfl

@[simp]
theorem editEvent_create (p : CreatePayload) :
    (Action.create p).editEvent = none := rfl

@[simp]
theorem editEvent_add_comment (issue_id b : String) :
    (Action.add_comment issue_id b).editEvent = none := rfl

@[simp]
theorem editEvent_edit_issue (u b : String) :
    (Action.edit_issue u b).editEvent = some (u, b) := rfl

@[simp]
theorem searchUrl_search (u : String) :
    (Action.search u).searchUrl = some u := rfl

@[simp]
theorem searchUrl_create (p : CreatePayload) :
    (Action.create p).searchUrl = none := rfl

@[simp]
theorem searchUrl_add_comment (issue_id b : String) :
    (Action.add_comment issue_id b).searchUrl = none := rfl

@[simp]
theorem searchUrl_edit_issue (u b : String) :
    (Action.edit_issue u b).searchUrl = none := rfl

theorem filterMap_searchUrl_submitted (cfg : GithubIssueImport) (env : Env)
    (i : Issue) :
    List.filterMap Action.searchUrl (submittedPayloads cfg env i) = [] := by
  unfold submittedPayloads
  split <;> rfl

theorem filterMap_commentBody_submitted (cfg : GithubIssueImport) (env : Env)
    (i : Issue) :
    List.filterMap Action.commentBody (submittedPayloads cfg env i) = [] := by
  unfold submittedPayloads
  split <;> rfl

theorem filterMap_editEvent_submitted (cfg : GithubIssueImport) (env : Env)
    (i : Issue) :
    List.filterMap Action.editEvent (submittedPayloads cfg env i) = [] := by
  unfold submittedPayloads
  split <;> rfl

theorem filterMap_createPayload_submitted (cfg : GithubIssueImport)
    (env : Env) (i : Issue) :
    List.filterMap Action.createPayload (submittedPayloads cfg env i) =
      if retryCond cfg env i then [payload1 cfg i, payload2 cfg i]
      else [payload1 cfg i] := by
  unfold submittedPayloads
  split <;> rfl

theorem filterMap_searchUrl_map_comments (rid : String) (l : List Comment) :
    List.filterMap (Action.searchUrl ∘ fun c => Action.add_comment rid c.body)
      l = [] := by
  induction l with
  | nil => rfl
  | cons c cs ih =>
    simp only [List.filterMap_cons, Function.comp_apply,
      searchUrl_add_comment, ih]

theorem filterMap_createPayload_map_comments (rid : String)
    (l : List Comment) :
    List.filterMap
      (Action.createPayload ∘ fun c => Action.add_comment rid c.body) l
      = [] := by
  induction l with
  | nil => rfl
  | cons c cs ih =>
    simp only [List.filterMap_cons, Function.comp_apply,
      createPayload_add_comment, ih]

theorem filterMap_editEvent_map_comments (rid : String) (l : List Comment) :
    List.filterMap (Action.editEvent ∘ fun c => Action.add_comment rid c.body)
      l = [] := by
  induction l with
  | nil => rfl
  | cons c cs ih =>
    simp only [List.filterMap_cons, Function.comp_apply,
      editEvent_add_comment, ih]

theorem filterMap_commentBody_map_comments (rid : String)
    (l : List Comment) :
    List.filterMap
      (Action.commentBody ∘ fun c => Action.add_comment rid c.body) l
      = l.map Comment.body := by
  induction l with
  | nil => rfl
  | cons c cs ih =>
    simp only [List.filterMap_cons, Function.comp_apply,
      commentBody_add_comment, ih, List.map_cons]

theorem searchUrls_import_issue (cfg : GithubIssueImport) (env : Env)
    (i : Issue) : searchUrls (import_issue cfg env i).1 = [i.url] := by
  cases h : jira_issue_linked_to_gh_issue env cfg i.url
  · rw [import_issue_not_linked cfg env i h]
    split
    · simp [searchUrls, filterMap_searchUrl_submitted]
    · cases hb : (issueLabels i).contains "kind/backport" <;>
        simp [searchUrls, hb, filterMap_searchUrl_submitted,
          filterMap_searchUrl_map_comments]
  · rw [import_issue_linked cfg env i h]
    rfl

theorem createPayloads_import_issue (cfg : GithubIssueImport) (env : Env)
    (i : Issue) (h : jira_issue_linked_to_gh_issue env cfg i.url = false) :
    createPayloads (import_issue cfg env i).1 =
      if retryCond cfg env i then [payload1 cfg i, payload2 cfg i]
      else [payload1 cfg i] := by
  rw [import_issue_not_linked cfg env i h]
  split
  · simp [createPayloads, filterMap_createPayload_submitted]
  · cases hb : (issueLabels i).contains "kind/backport" <;>
      simp [createPayloads, hb, filterMap_createPayload_submitted,
        filterMap_createPayload_map_comments]

theorem commentBodies_import_issue (cfg : GithubIssueImport) (env : Env)
    (i : Issue) (h : jira_issue_linked_to_gh_issue env cfg i.url = false)
    (he : (governingResp cfg env i).has_errors = false) :
    commentBodies (import_issue cfg env i).1 =
      boilerplate_message :: (i.comments.map Comment.body).reverse := by
  rw [import_issue_not_linked cfg env i h, if_neg (by simp [he])]
  cases hb : (issueLabels i).contains "kind/backport" <;>
    simp [commentBodies, hb, filterMap_commentBody_submitted,
      filterMap_commentBody_map_comments]

theorem editEvents_import_issue (cfg : GithubIssueImport) (env : Env)
    (i : Issue) (h : jira_issue_linked_to_gh_issue env cfg i.url = false)
    (he : (governingResp cfg env i).has_errors = false) :
    editEvents (import_issue cfg env i).1 =
      if (issueLabels i).contains "kind/backport" then []
      else [(i.url, backlinkBody cfg i (governingResp cfg env i).key)] := by
  rw [import_issue_not_linked cfg env i h, if_neg (by simp [he])]
  cases hb : (issueLabels i).contains "kind/backport" <;>
    simp [editEvents, hb, filterMap_editEvent_submitted,
      filterMap_editEvent_map_comments]

theorem import_issue_snd (cfg : GithubIssueImport) (env : Env) (i : Issue)
    (h : jira_issue_linked_to_gh_issue env cfg i.url = false) :
    (import_issue cfg env i).2 =
      if (governingResp cfg env i).has_errors then
        some (governingResp cfg env i).errors_text
      else none := by
  rw [import_issue_not_linked cfg env i h]
  split <;> rfl

theorem firstCreatePayload_not_linked (cfg : GithubIssueImport) (env : Env)
    (i : Issue) (h : jira_issue_linked_to_gh_issue env cfg i.url = false) :
    firstCreatePayload cfg env i = payload1 cfg i := by
  unfold firstCreatePayload
  rw [createPayloads_import_issue cfg env i h]
  cases hr : retryCond cfg env i <;> simp [hr]

theorem create_issue_lookup_description (d s t : String) (ls : List String)
    (pk u : String) (a : Option String) :
    (create_issue d s t ls pk u a).fields.lookup "description" =
      some (FieldVal.str d) := rfl

theorem create_issue_lookup_issuetype (d s t : String) (ls : List String)
    (pk u : String) (a : Option String) :
    (create_issue d s t ls pk u a).fields.lookup "issuetype" =
      some (FieldVal.nameObj t) := rfl

theorem create_issue_lookup_labels (d s t : String) (ls : List String)
    (pk u : String) (a : Option String) :
    (create_issue d s t ls pk u a).fields.lookup "labels" =
      some (FieldVal.strList ls) := rfl

theorem create_issue_lookup_assignee (d s t : String) (ls : List String)
    (pk u : String) (a : Option String) :
    (create_issue d s t ls pk u a).fields.lookup "assignee" =
      a.map FieldVal.idObj := by
  cases a <;> rfl

theorem import_issues_loop_abort (cfg : GithubIssueImport) (env : Env)
    (i : Issue) (rest : List Issue) (e : String)
    (h : (import_issue cfg env i).2 = some e) :
    import_issues_loop cfg env (i :: rest) =
      ((import_issue cfg env i).1, some e) := by
  simp only [import_issues_loop, h]

theorem import_issues_loop_step (cfg : GithubIssueImport) (env : Env)
    (i : Issue) (rest : List Issue)
    (h : (import_issue cfg env i).2 = none) :
    import_issues_loop cfg env (i :: rest) =
      ((import_issue cfg env i).1 ++ (import_issues_loop cfg env rest).1,
       (import_issues_loop cfg env rest).2) := by
  simp only [import_issues_loop, h]

theorem searchUrls_import_issues_loop (cfg : GithubIssueImport) (env : Env)
    (l : List Issue) (h : (import_issues_loop cfg env l).2 = none) :
    searchUrls (import_issues_loop cfg env l).1 = l.map Issue.url := by
  induction l with
  | nil => rfl
  | cons i rest ih =>
    cases hsnd : (import_issue cfg env i).2 with
    | some e =>
      rw [import_issues_loop_abort cfg env i rest e hsnd] at h
      simp at h
    | none =>
      rw [import_issues_loop_step cfg env i rest hsnd] at h ⊢
      simp only [searchUrls, List.filterMap_append] at h ⊢
      have := searchUrls_import_issue cfg env i
      simp only [searchUrls] at this
      rw [this, List.map_cons]
      have hrest := ih h
      simp only [searchUrls] at hrest
      rw [hrest]
      rfl

theorem storedDescription_not_linked (cfg : GithubIssueImport) (env : Env)
    (i : Issue) (h : jira_issue_linked_to_gh_issue env cfg i.url = false) :
    storedDescription cfg env i = i.body := by
  unfold storedDescription storedField
  rw [firstCreatePayload_not_linked cfg env i h]
  simp [payload1, create_issue_lookup_description]

theorem provenanceComment_not_linked (cfg : GithubIssueImport) (env : Env)
    (i : Issue) (h : jira_issue_linked_to_gh_issue env cfg i.url = false)
    (he : (governingResp cfg env i).has_errors = false) :
    provenanceComment cfg env i = boilerplate_message := by
  unfold provenanceComment
  rw [commentBodies_import_issue cfg env i h he]

/-! ### The claims -/

/-- C1: when the Duplicate Guard's search for the configured project with
the external-link field equal to a source url reports a nonzero total,
`_jira_issue_linked_to_gh_issue` returns true, and the import loop skips
that issue entirely: its loop iteration performs only the guard search —
no issue creation, no comment, and no back-link edit — so re-running
the importer never creates a second destination issue for that url. -/
theorem c1_linked_issue_is_skipped (cfg : GithubIssueImport) (env : Env)
    (i : Issue)
    (h : env.search_total (jql_query cfg.jira_project i.url) ≠ 0) :
    jira_issue_linked_to_gh_issue env cfg i.url = true ∧
    import_issue cfg env i = ([Action.search i.url], none) ∧
    createPayloads (import_issue cfg env i).1 = [] ∧
    commentBodies (import_issue cfg env i).1 = [] ∧
    editEvents (import_issue cfg env i).1 = [] := by
  have hl : jira_issue_linked_to_gh_issue env cfg i.url = true := by
    simpa [jira_issue_linked_to_gh_issue, bne_iff_ne] using h
  refine ⟨hl, import_issue_linked cfg env i hl, ?_, ?_, ?_⟩ <;>
    rw [import_issue_linked cfg env i hl] <;> rfl

/-- Witness for C1 at a concrete input: in a world whose search always
reports one match, the spec's example issue is skipped. -/
theorem c1_linked_issue_is_skipped_witness :
    jira_issue_linked_to_gh_issue env₁ cfg₀ sampleIssue.url = true ∧
    import_issue cfg₀ env₁ sampleIssue =
      ([Action.search sampleIssue.url], none) :=
  ⟨(c1_linked_issue_is_skipped cfg₀ env₁ sampleIssue (by decide)).1,
   (c1_linked_issue_is_skipped cfg₀ env₁ sampleIssue (by decide)).2.1⟩

/-- C2 counterexample: the orchestrator does process issues in reverse
fetch order, but an issue's comments are NOT replayed in the same relative
order as returned by the fetch: for an issue fetched with comments
`["first comment", "second comment"]` the destination receives them as
`["second comment", "first comment"]` (after the provenance comment). -/
theorem c2_comment_order_counterexample :
    twoCommentIssue.comments.map Comment.body =
      ["first comment", "second comment"] ∧
    commentBodies (import_issue cfg₀ env₀ twoCommentIssue).1 =
      [boilerplate_message, "second comment", "first comment"] ∧
    commentBodies (import_issue cfg₀ env₀ twoCommentIssue).1 ≠
      boilerplate_message :: twoCommentIssue.comments.map Comment.body := by
  refine ⟨rfl, rfl, ?_⟩
  intro hyp
  have h1 : ([boilerplate_message, "second comment", "first comment"] :
      List String) = [boilerplate_message, "first comment", "second comment"] :=
    hyp
  have h2 : ("second comment" : String) = "first comment" := by
    injection h1 with h1a h1b
    injection h1b with h2a h2b
  exact absurd h2 (by decide)

/-- C2 (amended): the reversal policy is applied uniformly — the
orchestrator processes issues in the reverse of fetch order, and each
created issue's comments are likewise replayed in the reverse of the order
returned by the source fetch (one comment POST at a time, after the
provenance comment). -/
theorem c2_uniform_reversal (cfg : GithubIssueImport) (env : Env)
    (issues : List Issue) (i : Issue)
    (hloop : (import_issues cfg env issues).2 = none)
    (h : jira_issue_linked_to_gh_issue env cfg i.url = false)
    (he : (governingResp cfg env i).has_errors = false) :
    searchUrls (import_issues cfg env issues).1 =
      issues.reverse.map Issue.url ∧
    commentBodies (import_issue cfg env i).1 =
      boilerplate_message :: (i.comments.map Comment.body).reverse :=
  ⟨searchUrls_import_issues_loop cfg env issues.reverse hloop,
   commentBodies_import_issue cfg env i h he⟩

/-- Witness for C2 (amended) at a concrete input. -/
theorem c2_uniform_reversal_witness :
    searchUrls (import_issues cfg₀ env₀ [sampleIssue, twoCommentIssue]).1 =
      [twoCommentIssue.url, sampleIssue.url] ∧
    commentBodies (import_issue cfg₀ env₀ twoCommentIssue).1 =
      boilerplate_message :: ["second comment", "first comment"] :=
  (c2_uniform_reversal cfg₀ env₀ [sampleIssue, twoCommentIssue]
    twoCommentIssue rfl rfl rfl)

/-- An unlabelled, unassigned issue whose body is `n` copies of `a`. -/
def longBodyIssue (n : Nat) : Issue :=
  { title := "t"
    body := String.mk (List.replicate n 'a')
    url := "https://github.com/org/repo/issues/9"
    number := 9
    author := "a"
    labels := []
    comments := []
    assignees := [] }

/-- C3 counterexample: there is no fixed character ceiling at which the
stored description gets truncated — for every candidate ceiling `C`, an
issue whose body is longer than `C` is stored with its full body as the
description, not with the `C`-length prefix.  (`_import_issues` passes
`issue["body"]` to `_create_issue` unchanged; no converter or truncation
exists in the code.) -/
theorem c3_truncation_counterexample :
    ¬ ∃ C : Nat, ∀ i : Issue,
        C < i.body.length →
        storedDescription cfg₀ env₀ i = i.body.take C := by
  rintro ⟨C, hC⟩
  have hlink : jira_issue_linked_to_gh_issue env₀ cfg₀
      (longBodyIssue (C + 1)).url = false := rfl
  have hlen : (longBodyIssue (C + 1)).body.length = C + 1 := by
    show (List.replicate (C + 1) 'a').length = C + 1
    rw [List.length_replicate]
  have h1 := hC (longBodyIssue (C + 1)) (by omega)
  rw [storedDescription_not_linked cfg₀ env₀ (longBodyIssue (C + 1)) hlink,
    String.take_eq] at h1
  have h2 := congrArg String.length h1
  rw [hlen] at h2
  have h3 : (String.mk ((longBodyIssue (C + 1)).body.data.take C)).length
      = C := by
    show ((List.replicate (C + 1) 'a').take C).length = C
    rw [List.length_take, List.length_replicate]
    omega
  rw [h3] at h2
  omega

/-- C3 (amended): for every imported issue the stored description is the
source body completely unchanged — no markup converter is invoked and no
truncation at any ceiling occurs — and the provenance comment is always the
plain boilerplate, which never carries a truncation notice. -/
theorem c3_description_untruncated (cfg : GithubIssueImport) (env : Env)
    (i : Issue)
    (h : jira_issue_linked_to_gh_issue env cfg i.url = false)
    (he : (governingResp cfg env i).has_errors = false) :
    storedDescription cfg env i = i.body ∧
    provenanceComment cfg env i = boilerplate_message :=
  ⟨storedDescription_not_linked cfg env i h,
   provenanceComment_not_linked cfg env i h he⟩

/-- Witness for C3 (amended) at a concrete input. -/
theorem c3_description_untruncated_witness :
    storedDescription cfg₀ env₀ sampleIssue = "stack trace" ∧
    provenanceComment cfg₀ env₀ sampleIssue = boilerplate_message :=
  c3_description_untruncated cfg₀ env₀ sampleIssue rfl rfl

/-- C4 counterexample: a source label containing spaces is stored on the
created destination issue verbatim — `"good first issue"` is sent as
`"good first issue"`, not `"good-first-issue"`; the code performs no
space-to-hyphen rewriting of label names. -/
theorem c4_label_spaces_counterexample :
    spacedLabelIssue.labels.map Label.name = ["good first issue"] ∧
    storedLabels cfg₀ env₀ spacedLabelIssue = ["good first issue"] ∧
    storedLabels cfg₀ env₀ spacedLabelIssue ≠ ["good-first-issue"] := by
  refine ⟨rfl, rfl, ?_⟩
  intro hyp
  have h1 : (["good first issue"] : List String) = ["good-first-issue"] := hyp
  exact absurd h1 (by decide)

/-- C4 (amended): the labels stored on the created destination issue are
exactly the source issue's label names, taken verbatim (spaces included). -/
theorem c4_labels_stored_verbatim (cfg : GithubIssueImport) (env : Env)
    (i : Issue)
    (h : jira_issue_linked_to_gh_issue env cfg i.url = false) :
    storedLabels cfg env i = i.labels.map Label.name := by
  unfold storedLabels storedField
  rw [firstCreatePayload_not_linked cfg env i h]
  simp [payload1, create_issue_lookup_labels, issueLabels]

/-- Witness for C4 (amended) at a concrete input. -/
theorem c4_labels_stored_verbatim_witness :
    storedLabels cfg₀ env₀ spacedLabelIssue =
      spacedLabelIssue.labels.map Label.name :=
  c4_labels_stored_verbatim cfg₀ env₀ spacedLabelIssue rfl

/-- C5: the created destination issue's type is `"Bug"` iff the source
issue's label set contains the marker `"kind/bug"`, and `"Task"`
otherwise. -/
theorem c5_issue_type_bug_iff (cfg : GithubIssueImport) (env : Env)
    (i : Issue)
    (h : jira_issue_linked_to_gh_issue env cfg i.url = false) :
    (storedIssueType cfg env i = "Bug" ↔ "kind/bug" ∈ issueLabels i) ∧
    ("kind/bug" ∉ issueLabels i → storedIssueType cfg env i = "Task") := by
  have ht : storedIssueType cfg env i = issueTypeOf i := by
    unfold storedIssueType storedField
    rw [firstCreatePayload_not_linked cfg env i h]
    simp [payload1, create_issue_lookup_issuetype]
  rw [ht]
  unfold issueTypeOf
  by_cases hm : "kind/bug" ∈ issueLabels i
  · rw [if_pos (show (issueLabels i).contains "kind/bug" = true from
      List.elem_iff.mpr hm)]
    exact ⟨⟨fun _ => hm, fun _ => rfl⟩, fun hn => absurd hm hn⟩
  · rw [if_neg (by simpa using hm)]
    exact ⟨⟨fun hb => absurd hb (by decide), fun hmem => absurd hmem hm⟩,
      fun _ => rfl⟩

/-- Witness for C5 at a concrete input: the spec's example issue, labelled
`kind/bug`, is created as a `"Bug"`. -/
theorem c5_issue_type_bug_iff_witness :
    storedIssueType cfg₀ env₀ sampleIssue = "Bug" :=
  (c5_issue_type_bug_iff cfg₀ env₀ sampleIssue rfl).1.mpr (by decide)

/-- C6: with at least one assignee, the created issue's `assignee` field is
the identity mapping of the first assignee's login, with the NullPanda
fallback account substituted when that login has no mapped account; with
zero assignees, the creation payload carries no `assignee` key at all. -/
theorem c6_assignee_mapping (cfg : GithubIssueImport) (env : Env) (i : Issue)
    (h : jira_issue_linked_to_gh_issue env cfg i.url = false) :
    (i.assignees = [] →
      (firstCreatePayload cfg env i).fields.lookup "assignee" = none) ∧
    (∀ a rest, i.assignees = a :: rest →
      (firstCreatePayload cfg env i).fields.lookup "assignee" =
        some (FieldVal.idObj
          ((cfg.mapped_users.lookup a.login).getD cfg.null_panda_user))) := by
  rw [firstCreatePayload_not_linked cfg env i h]
  constructor
  · intro hz
    simp [payload1, create_issue_lookup_assignee, assigneeOf, hz]
  · intro a rest hcons
    simp [payload1, create_issue_lookup_assignee, assigneeOf, hcons]

/-- Witness for C6 at concrete inputs: the unassigned example issue gets no
`assignee` key; the issue assigned to `alice` gets her mapped account id. -/
theorem c6_assignee_mapping_witness :
    (firstCreatePayload cfg₀ env₀ sampleIssue).fields.lookup "assignee"
      = none ∧
    (firstCreatePayload cfg₀ env₀ assignedIssue).fields.lookup "assignee"
      = some (FieldVal.idObj "alice-id") :=
  ⟨(c6_assignee_mapping cfg₀ env₀ sampleIssue rfl).1 rfl,
   (c6_assignee_mapping cfg₀ env₀ assignedIssue rfl).2 ⟨"alice"⟩ [] rfl⟩

/-- C7: when creation fails with an assignee-attributable error and an
assignee was set (the resubmit condition), creation is retried exactly once
— exactly two creation POSTs, the second with the `assignee` field cleared;
otherwise exactly one POST is made.  Whenever the governing response still
reports errors (any non-assignee failure, or a failure of the single
retry), the iteration raises, and the loop aborts the whole run: the
remaining issues are not processed. -/
theorem c7_assignee_retry_then_fatal (cfg : GithubIssueImport) (env : Env)
    (i : Issue) (rest : List Issue)
    (h : jira_issue_linked_to_gh_issue env cfg i.url = false) :
    (retryCond cfg env i = true →
      createPayloads (import_issue cfg env i).1 =
        [payload1 cfg i, payload2 cfg i] ∧
      (payload2 cfg i).fields.lookup "assignee" = none) ∧
    (retryCond cfg env i = false →
      createPayloads (import_issue cfg env i).1 = [payload1 cfg i]) ∧
    ((governingResp cfg env i).has_errors = true →
      (import_issue cfg env i).2 =
        some (governingResp cfg env i).errors_text ∧
      import_issues_loop cfg env (i :: rest) =
        ((import_issue cfg env i).1,
         some (governingResp cfg env i).errors_text)) := by
  refine ⟨?_, ?_, ?_⟩
  · intro hr
    constructor
    · rw [createPayloads_import_issue cfg env i h, if_pos hr]
    · simp [payload2, create_issue_lookup_assignee]
  · intro hr
    rw [createPayloads_import_issue cfg env i h, if_neg (by simp [hr])]
  · intro herr
    have hsnd : (import_issue cfg env i).2 =
        some (governingResp cfg env i).errors_text := by
      rw [import_issue_snd cfg env i h, if_pos herr]
    exact ⟨hsnd, import_issues_loop_abort cfg env i rest _ hsnd⟩

/-- Witness for C7 at a concrete input: in a world that rejects exactly the
payloads carrying an assignee, the assigned issue's creation is resubmitted
once without the assignee. -/
theorem c7_assignee_retry_then_fatal_witness :
    retryCond cfg₀ envAssigneeReject assignedIssue = true ∧
    createPayloads
        (import_issue cfg₀ envAssigneeReject assignedIssue).1 =
      [payload1 cfg₀ assignedIssue, payload2 cfg₀ assignedIssue] ∧
    (payload2 cfg₀ assignedIssue).fields.lookup "assignee" = none :=
  ⟨by decide,
   ((c7_assignee_retry_then_fatal cfg₀ envAssigneeReject assignedIssue []
      rfl).1 (by decide)).1,
   ((c7_assignee_retry_then_fatal cfg₀ envAssigneeReject assignedIssue []
      rfl).1 (by decide)).2⟩

/-- C8 counterexample: there is no operator toggle that disables back-link
insertion — for an issue without the `kind/backport` label, every
configuration whatsoever still performs the back-link edit (the CLI exposes
no flag for it, and `insert_jira_link` depends only on the labels). -/
theorem c8_no_disable_toggle_counterexample :
    (issueLabels sampleIssue).contains "kind/backport" = false ∧
    ¬ ∃ cfg : GithubIssueImport,
        editEvents (import_issue cfg env₀ sampleIssue).1 = [] := by
  refine ⟨rfl, ?_⟩
  rintro ⟨cfg, hcfg⟩
  rw [editEvents_import_issue cfg env₀ sampleIssue rfl rfl] at hcfg
  have hb : (issueLabels sampleIssue).contains "kind/backport" = false := rfl
  rw [hb] at hcfg
  simp at hcfg

/-- C8 (amended): the back-link patch is skipped exactly when the issue
carries the `kind/backport` label (there is no operator toggle); otherwise
the external edit command is invoked against the source issue's url with
the original, untranslated body plus the appended markdown line
`JIRA Link: [<key>](<jira_url>/browse/<key>)`. -/
theorem c8_backlink_iff_not_backport (cfg : GithubIssueImport) (env : Env)
    (i : Issue)
    (h : jira_issue_linked_to_gh_issue env cfg i.url = false)
    (he : (governingResp cfg env i).has_errors = false) :
    (editEvents (import_issue cfg env i).1 = [] ↔
      (issueLabels i).contains "kind/backport" = true) ∧
    ((issueLabels i).contains "kind/backport" = false →
      editEvents (import_issue cfg env i).1 =
        [(i.url, backlinkBody cfg i (governingResp cfg env i).key)]) := by
  rw [editEvents_import_issue cfg env i h he]
  cases hb : (issueLabels i).contains "kind/backport" <;> simp [hb]

/-- Witness for C8 (amended) at a concrete input. -/
theorem c8_backlink_iff_not_backport_witness :
    editEvents (import_issue cfg₀ env₀ sampleIssue).1 =
      [(sampleIssue.url, backlinkBody cfg₀ sampleIssue "PROJ-1")] :=
  (c8_backlink_iff_not_backport cfg₀ env₀ sampleIssue rfl rfl).2 rfl

/-- C9 counterexample: when the external edit command fails (raises), the
back-link patch's temporary file is NOT deleted — the exception skips
`os.unlink`, and the `NamedTemporaryFile(delete=False)` context manager
only closes the file on exit, leaving it on disk. -/
theorem c9_temp_file_leak_counterexample :
    (backlink_patch false).raised = true ∧
    (backlink_patch false).file_exists = true :=
  ⟨rfl, rfl⟩

/-- C9 (amended): the back-link patch's temporary file is deleted iff the
external edit command succeeds; on the failure path the file survives the
operation. -/
theorem c9_temp_file_deleted_iff_edit_ok (edit_ok : Bool) :
    (backlink_patch edit_ok).file_exists = !edit_ok := by
  cases edit_ok <;> rfl

/-- C10: the process exits 0 on any completed run — including a run aborted
internally by a fatal creation `RuntimeError` that `main`'s handler merely
logs — and exits 1 exactly when an exception escapes `main`'s handler (a
non-`RuntimeError`, e.g. a malformed identity-mapping header or a crashed
fetch command). -/
theorem c10_exit_codes (cfg : GithubIssueImport) (env : Env)
    (issues : List Issue) (fetch_err e : String) (hdr : List String)
    (o : RunOutcome) :
    process_exit EXPECTED_FIELD_NAMES
        (run_outcome cfg env (Except.ok issues)) = 0 ∧
    ((import_issues cfg env issues).2 = some e →
      run_outcome cfg env (Except.ok issues) = RunOutcome.runtimeError e) ∧
    process_exit EXPECTED_FIELD_NAMES
        (run_outcome cfg env (Except.error fetch_err)) = 1 ∧
    (hdr ≠ EXPECTED_FIELD_NAMES → process_exit hdr o = 1) ∧
    (process_exit hdr o = 1 ↔
      ∃ msg, main_result hdr o = Except.error msg) := by
  refine ⟨?_, ?_, ?_, ?_, ?_⟩
  · cases him : (import_issues cfg env issues).2 <;>
      simp [process_exit, main_result, run_outcome, him]
  · intro he
    simp [run_outcome, he]
  · simp [process_exit, main_result, run_outcome]
  · intro hne
    simp [process_exit, main_result, hne]
  · unfold process_exit
    cases hm : main_result hdr o with
    | ok n =>
      have hz : n = 0 := by
        unfold main_result at hm
        by_cases hh : hdr = EXPECTED_FIELD_NAMES
        · rw [if_pos hh] at hm
          cases o <;> simp_all
        · rw [if_neg hh] at hm
          simp_all
      subst hz
      simp
    | error msg =>
      simp

/-- Witness for C10 at concrete inputs: a run whose only issue's creation
fails fatally still exits 0, and a bad CSV header exits 1. -/
theorem c10_exit_codes_witness :
    process_exit EXPECTED_FIELD_NAMES
        (run_outcome cfg₀ envAlwaysFail (Except.ok [sampleIssue])) = 0 ∧
    run_outcome cfg₀ envAlwaysFail (Except.ok [sampleIssue]) =
      RunOutcome.runtimeError "issuetype: not valid" ∧
    process_exit ["bad header"] RunOutcome.completed = 1 :=
  ⟨(c10_exit_codes cfg₀ envAlwaysFail [sampleIssue] "ferr"
      "issuetype: not valid" ["bad header"] RunOutcome.completed).1,
   (c10_exit_codes cfg₀ envAlwaysFail [sampleIssue] "ferr"
      "issuetype: not valid" ["bad header"] RunOutcome.completed).2.1 rfl,
   (c10_exit_codes cfg₀ envAlwaysFail [sampleIssue] "ferr"
      "issuetype: not valid" ["bad header"] RunOutcome.completed).2.2.2.1
     (by decide)⟩

end GhJira
